import Mathlib

/-!
Shallow embedding of the flight-route tracking core of Little Navmap
(`src/route/route.cpp`): leg data model, active-leg advancement, distance
accounting, nearest-segment search, position queries and procedure splicing.

Geometry (`atools::geo`) is an external collaborator (spec section 6); it is
modelled as a record of functions (`Geo`) over planar rational coordinates,
and concrete instances are supplied where theorems are evaluated on inputs.
Machine floats are modelled by exact rationals; the float sentinels
`maptypes::INVALID_INDEX_VALUE` (`INT_MAX`) and
`maptypes::INVALID_DISTANCE_VALUE` (`FLT_MAX`) are the corresponding exact
constants.
-/

set_option maxRecDepth 16000

/-- `maptypes::INVALID_INDEX_VALUE` = `std::numeric_limits<int>::max()`. -/
def INVALID_INDEX_VALUE : Int := 2147483647

/-- `maptypes::INVALID_DISTANCE_VALUE` = `std::numeric_limits<float>::max()`,
the exact value of `FLT_MAX`. -/
def INVALID_DISTANCE_VALUE : ℚ := 340282346638528859811704183484516925440

/-- `atools::geo` line-to-point classification
{invalid, before-start, along-track, after-end}. -/
inductive LineStatus where
  | INVALID
  | BEFORE_START
  | ALONG_TRACK
  | AFTER_END
deriving DecidableEq, Repr

/-- `atools::geo::LineDistance`: classification plus signed cross-track
distance and the distances from the two segment endpoints (meters). -/
structure LineDistance where
  status : LineStatus
  distance : ℚ
  distanceFrom1 : ℚ
  distanceFrom2 : ℚ
deriving DecidableEq, Repr

/-- A geographic position; coordinates are abstract planar rationals handed to
the geometry collaborator, plus the validity flag of `atools::geo::Pos`. -/
structure Pos where
  x : ℚ
  y : ℚ
  valid : Bool
deriving DecidableEq, Repr

/-- `atools::geo::EMPTY_POS`, the invalid/empty position. -/
def EMPTY_POS : Pos := ⟨0, 0, false⟩

/-- `maptypes::PosCourse`: a sampled position plus course over ground. -/
structure PosCourse where
  pos : Pos
  course : ℚ
deriving DecidableEq, Repr

/-- Modelled from the spec: a position+course sample is valid when its
position is valid (spec sections 4.2 and 7; `maptypes.h` is not under
`src/`). -/
def PosCourse.isValid (p : PosCourse) : Bool := p.pos.valid

/-- Default-constructed `maptypes::PosCourse()` (invalid). -/
def emptyPosCourse : PosCourse := ⟨EMPTY_POS, 0⟩

/-- The procedure-leg detail types the route algorithms dispatch on
(`maptypes::ApproachLegType`); all remaining types are `OTHER`. -/
inductive ApproachLegType where
  | INITIAL_FIX
  | PROCEDURE_TURN
  | HOLD_TO_ALTITUDE
  | HOLD_TO_FIX
  | HOLD_TO_MANUAL
  | OTHER
deriving DecidableEq, Repr

/-- `maptypes::MapProcedureLeg` detail carried by procedure route legs:
detailed type, the leg line, the hold helper line with its turn direction,
the calculated distance and the polyline geometry (spec section 3). -/
structure MapProcedureLeg where
  type : ApproachLegType
  line : Pos × Pos
  holdLine : Pos × Pos
  turnDirection : String
  calculatedDistance : ℚ
  geometry : List Pos
deriving DecidableEq, Repr

/-- Modelled from the spec (section 3 data model; `routeleg.h` is not under
`src/`): the variant tag of a route leg — plain route point, or one of the
procedure categories. -/
inductive ProcCat where
  | NONE
  | APPROACH
  | MISSED
  | TRANSITION
  | SID
  | STAR
deriving DecidableEq, Repr

/-- The map-object types the route algorithms test (`maptypes`); everything
else is `OTHERTYPE`. -/
inductive MapObjectType where
  | AIRPORT
  | VOR
  | NDB
  | WAYPOINT
  | USER
  | OTHERTYPE
deriving DecidableEq, Repr

/-- One route leg (`RouteLeg`): immutable identity (position, map-object
type, variant tag, procedure-leg detail, point-likeness) plus the derived
field `distanceTo` recomputed by the distance pass (spec section 4.1). -/
structure RouteLeg where
  position : Pos
  mapObjectType : MapObjectType
  procCat : ProcCat
  approachLeg : MapProcedureLeg
  approachPointFlag : Bool
  distanceTo : ℚ
deriving DecidableEq, Repr

/-- Empty procedure-leg detail of a plain leg. -/
def dfltApproachLeg : MapProcedureLeg :=
  ⟨ApproachLegType.OTHER, (EMPTY_POS, EMPTY_POS), (EMPTY_POS, EMPTY_POS), "", 0, []⟩

/-- Default route leg (used for out-of-range access in the model). -/
def dfltLeg : RouteLeg :=
  ⟨EMPTY_POS, MapObjectType.OTHERTYPE, ProcCat.NONE, dfltApproachLeg, false, 0⟩

/-- `RouteLeg::getApproachLegType()`. -/
def RouteLeg.getApproachLegType (l : RouteLeg) : ApproachLegType := l.approachLeg.type

/-- Modelled from the spec (glossary "Hold"; `routeleg.h` not under `src/`):
a leg is a hold when its procedure-leg detail type is one of the hold
types. -/
def RouteLeg.isHold (l : RouteLeg) : Bool :=
  l.approachLeg.type == ApproachLegType.HOLD_TO_ALTITUDE ||
  l.approachLeg.type == ApproachLegType.HOLD_TO_FIX ||
  l.approachLeg.type == ApproachLegType.HOLD_TO_MANUAL

/-- Modelled from the spec (section 3 variant tag): missed-approach leg. -/
def RouteLeg.isMissed (l : RouteLeg) : Bool := l.procCat == ProcCat.MISSED

/-- Modelled from the spec (section 3 variant tag): arrival-approach leg. -/
def RouteLeg.isApproach (l : RouteLeg) : Bool := l.procCat == ProcCat.APPROACH

/-- Modelled from the spec (section 3 variant tag): transition leg. -/
def RouteLeg.isTransition (l : RouteLeg) : Bool := l.procCat == ProcCat.TRANSITION

/-- Modelled from the spec (section 3 variant tag): departure-procedure leg. -/
def RouteLeg.isSid (l : RouteLeg) : Bool := l.procCat == ProcCat.SID

/-- Modelled from the spec (section 3 variant tag): STAR leg. -/
def RouteLeg.isStar (l : RouteLeg) : Bool := l.procCat == ProcCat.STAR

/-- Modelled from the spec (section 3 invariant): a leg belongs to some
procedure exactly when its variant tag is not the plain route point. -/
def RouteLeg.isAnyProcedure (l : RouteLeg) : Bool := l.procCat != ProcCat.NONE

/-- Modelled from the spec (section 4.4: zero-length "point" legs such as
initial fixes that position queries skip; `routeleg.cpp` not under `src/`). -/
def RouteLeg.isApproachPoint (l : RouteLeg) : Bool := l.approachPointFlag

/-- A flight-plan entry of the parallel entry list; the route algorithms
never look inside entries, they only insert/remove them in lockstep. -/
structure FlightplanEntry where
  tag : Nat
deriving DecidableEq, Repr

/-- Modelled from the spec (section 2 "procedure leg set"; `maptypes.h` not
under `src/`): an externally supplied procedure-leg set; the route core
observes only emptiness of its main part and of its attached transition. -/
structure MapProcedureLegs where
  legsCount : Nat
  transitionCount : Nat
deriving DecidableEq, Repr

/-- `MapProcedureLegs::isEmpty()`: no legs at all. -/
def MapProcedureLegs.isEmpty (s : MapProcedureLegs) : Bool :=
  s.legsCount == 0 && s.transitionCount == 0

/-- Default-constructed empty `maptypes::MapProcedureLegs()`. -/
def emptyProcLegs : MapProcedureLegs := ⟨0, 0⟩

/-- `MapProcedureLegs::clearTransition()`: drop the attached transition. -/
def MapProcedureLegs.clearTransition (s : MapProcedureLegs) : MapProcedureLegs :=
  ⟨s.legsCount, 0⟩

/-- The external geometry collaborator (spec sections 2 and 6): great-circle
line distance with classification, bearing, distance, interpolation along a
line and along a polyline. The route model is parametric in it. -/
structure Geo where
  distanceMeterToLine : Pos → Pos → Pos → LineDistance
  angleDegTo : Pos → Pos → ℚ
  distanceMeter : Pos → Pos → ℚ
  interpolate : Pos → Pos → ℚ → Pos
  interpolateLS : List Pos → ℚ → Pos

/-- The `Route` state: the ordered leg sequence, the parallel flight-plan
entry list, active-leg state, totals, the display filter bit for missed
legs (`shownTypes & maptypes::PROCEDURE_MISSED`), the three procedure block
offsets and the three attached procedure-leg sets. -/
structure Route where
  legs : List RouteLeg
  entries : List FlightplanEntry
  activeLeg : Int
  activeLegResult : LineDistance
  activePos : PosCourse
  totalDistance : ℚ
  shownMissed : Bool
  departureLegsOffset : Int
  starLegsOffset : Int
  arrivalLegsOffset : Int
  departureLegs : MapProcedureLegs
  starLegs : MapProcedureLegs
  arrivalLegs : MapProcedureLegs
deriving DecidableEq, Repr

/-- `Route::at(i)` with the model's out-of-range default. -/
def legAt (ls : List RouteLeg) (i : Int) : RouteLeg :=
  if 0 ≤ i then ls.getD i.toNat dfltLeg else dfltLeg

/-- `Route::getPositionAt(i)` = `at(i).getPosition()`. -/
def getPositionAt (ls : List RouteLeg) (i : Int) : Pos := (legAt ls i).position

/-- Modelled from the spec (procedure categories present/absent;
`route.h` accessors are not under `src/`): an arrival procedure is attached. -/
def Route.hasArrivalProcedure (r : Route) : Bool := !r.arrivalLegs.isEmpty

/-- Modelled from the spec: a STAR procedure is attached. -/
def Route.hasStarProcedure (r : Route) : Bool := !r.starLegs.isEmpty

/-- Modelled from the spec: a departure procedure is attached. -/
def Route.hasDepartureProcedure (r : Route) : Bool := !r.departureLegs.isEmpty

/-- Modelled from the spec: a transition is attached to the arrival. -/
def Route.hasTransitionProcedure (r : Route) : Bool :=
  r.arrivalLegs.transitionCount != 0

/-- `atools::geo::nmToMeter` (1 nm = 1852 m). -/
def nmToMeter (nm : ℚ) : ℚ := nm * 1852

/-- `atools::geo::meterToNm`. -/
def meterToNm (m : ℚ) : ℚ := m / 1852

/-- `atools::geo::normalizeCourse`: normalize a course to [0, 360). -/
def normalizeCourse (c : ℚ) : ℚ := c - 360 * (⌊c / 360⌋ : ℤ)

/-- `atools::mod` on the nonnegative arguments used here (floor-based
remainder). -/
def floatMod (a b : ℚ) : ℚ := a - b * (⌊a / b⌋ : ℤ)

/-- The course difference computed in `Route::updateActiveLegAndPos`
(lines 172-174): difference of sampled course and leg course, normalized
to [0, 180]. -/
def courseDiffCalc (sampleCourse legCrs : ℚ) : ℚ :=
  let d := floatMod (sampleCourse - legCrs + 360) 360
  if d > 180 then 360 - d else d

/-- `Route::resetActive` (route.cpp lines 61-68). -/
def resetActive (r : Route) : Route :=
  { r with
    activeLegResult :=
      ⟨LineStatus.INVALID, INVALID_DISTANCE_VALUE, INVALID_DISTANCE_VALUE,
        INVALID_DISTANCE_VALUE⟩
    activePos := emptyPosCourse
    activeLeg := INVALID_INDEX_VALUE }

/-- `Route::isSmaller` (route.cpp lines 113-117): fuzzy cross-track
comparison, `|dist1| < |dist2| + epsilon`. -/
def isSmaller (dist1 dist2 : LineDistance) (epsilon : ℚ) : Bool :=
  decide (|dist1.distance| < |dist2.distance| + epsilon)

/-- The line-distance result of the query position against route segment
`(leg[i-1], leg[i])`, as computed throughout route.cpp. -/
def segDist (g : Geo) (ls : List RouteLeg) (p : Pos) (i : Int) : LineDistance :=
  g.distanceMeterToLine p (getPositionAt ls (i - 1)) (getPositionAt ls i)

/-- The scan loop of `Route::nearestAllLegIndex` (route.cpp lines 860-871):
walk segment indices keeping the minimum absolute cross-track among
non-invalid classifications; `<` keeps the first minimum. The fuel
parameter bounds the iteration count (the list length always suffices). -/
def nearestScan (g : Geo) (ls : List RouteLeg) (p : Pos) :
    Nat → Nat → ℚ → ℚ → Int → ℚ × Int
  | 0, _, _, crossTrack, index => (crossTrack, index)
  | Nat.succ fuel, i, minDistance, crossTrack, index =>
    if i < ls.length then
      if (segDist g ls p i).status ≠ LineStatus.INVALID ∧
          |(segDist g ls p i).distance| < minDistance then
        nearestScan g ls p fuel (i + 1) |(segDist g ls p i).distance|
          (segDist g ls p i).distance i
      else
        nearestScan g ls p fuel (i + 1) minDistance crossTrack index
    else
      (crossTrack, index)

/-- `Route::nearestAllLegIndex` (route.cpp lines 846-882): nearest segment to
the position, discarded when farther than 100 nm. -/
def nearestAllLegIndex (g : Geo) (r : Route) (pos : PosCourse) : ℚ × Int :=
  if !pos.isValid then (INVALID_DISTANCE_VALUE, INVALID_INDEX_VALUE)
  else
    let scanned := nearestScan g r.legs pos.pos r.legs.length 1 INVALID_DISTANCE_VALUE
      INVALID_DISTANCE_VALUE INVALID_INDEX_VALUE
    if scanned.1 < INVALID_DISTANCE_VALUE then
      if |scanned.1| > nmToMeter 100 then
        (INVALID_DISTANCE_VALUE, INVALID_INDEX_VALUE)
      else scanned
    else scanned

/-- Step 2 of `Route::updateActiveLegAndPos` (route.cpp lines 127-132): seed
the active index with the nearest-segment index when there is none yet. -/
def seedIndex (g : Geo) (r : Route) (pos : PosCourse) : Int :=
  if r.activeLeg = INVALID_INDEX_VALUE then (nearestAllLegIndex g r pos).2
  else r.activeLeg

/-- The clamp of route.cpp lines 134-135: indices at or past the end (this
includes the `INT_MAX` invalid sentinel) become the last index. -/
def clampSize (n : Int) (a : Int) : Int := if a ≥ n then n - 1 else a

/-- The active index right before the advance decision (route.cpp lines
127-152): seeded, clamped, forced to 0 for a single-point route and bumped
from 0 to 1 otherwise. -/
def preSwitchIndex (g : Geo) (r : Route) (pos : PosCourse) : Int :=
  let a := clampSize (r.legs.length : Int) (seedIndex g r pos)
  if r.legs.length = 1 then 0
  else if a = 0 then 1 else a

/-- The initial-fix skip loop for holds (route.cpp lines 162-164): step over
point legs while `nextLeg < size() - 2`. -/
def skipInitialFix (ls : List RouteLeg) : Nat → Int → Int
  | 0, j => j
  | Nat.succ fuel, j =>
    if (legAt ls j).getApproachLegType = ApproachLegType.INITIAL_FIX ∧
        j < (ls.length : Int) - 2 then
      skipInitialFix ls fuel (j + 1)
    else j

/-- The candidate next leg (route.cpp lines 156-164): `active + 1`, with the
initial-fix skip applied when the active leg is a hold. -/
def candidateNextLeg (ls : List RouteLeg) (a : Int) : Int :=
  if (legAt ls a).isHold then skipInitialFix ls ls.length (a + 1) else a + 1

/-- The active-leg line-distance result (route.cpp lines 139-153): a point
check against the single leg for a one-leg route, otherwise against the
segment `(leg[a-1], leg[a])`. -/
def computeActiveResult (g : Geo) (ls : List RouteLeg) (p : Pos) (a : Int) :
    LineDistance :=
  if ls.length = 1 then
    g.distanceMeterToLine p (getPositionAt ls 0) (getPositionAt ls 0)
  else segDist g ls p a

/-- The advance decision table of `Route::updateActiveLegAndPos` (route.cpp
lines 191-239), first matching rule wins: hold with coinciding exit, hold
with differing exit (dedicated helper line), next-leg hold, procedure turn,
plain leg. -/
def switchDecision (g : Geo) (ls : List RouteLeg) (p : PosCourse) (a nl : Int)
    (activeRes nextRes : LineDistance) (courseDiff : ℚ) : Bool :=
  if (legAt ls a).isHold then
    if (legAt ls nl).approachLeg.line.1 == (legAt ls a).position then
      nextRes.status == LineStatus.ALONG_TRACK &&
      decide (|nextRes.distance| < nmToMeter (1/2)) &&
      decide (nextRes.distanceFrom1 > nmToMeter (3/4)) &&
      decide (courseDiff < 25)
    else
      let hl := (legAt ls a).approachLeg.holdLine
      let resultHold := g.distanceMeterToLine p.pos hl.1 hl.2
      resultHold.status == LineStatus.ALONG_TRACK &&
      decide (resultHold.distance <
        nmToMeter (if (legAt ls a).approachLeg.turnDirection = "R"
          then -(1/2) else (1/2)))
  else if (legAt ls nl).isHold then
    decide (|nextRes.distance| < nmToMeter (1/2))
  else if (legAt ls a).getApproachLegType = ApproachLegType.PROCEDURE_TURN then
    isSmaller nextRes activeRes 100 && decide (courseDiff < 45)
  else
    (activeRes.status == LineStatus.AFTER_END) ||
    (isSmaller nextRes activeRes 10 && decide (courseDiff < 90))

/-- `Route::updateActiveLegAndPos(pos)` (route.cpp lines 119-256). -/
def updateActiveLegAndPos (g : Geo) (r : Route) (pos : PosCourse) : Route :=
  if r.legs.isEmpty || !pos.isValid then resetActive r
  else
    let a := preSwitchIndex g r pos
    let activeRes := computeActiveResult g r.legs pos.pos a
    if a + 1 < (r.legs.length : Int) then
      let nl := candidateNextLeg r.legs a
      let p1 := getPositionAt r.legs (nl - 1)
      let p2 := getPositionAt r.legs nl
      let legCrs := normalizeCourse (g.angleDegTo p1 p2)
      let courseDiff := courseDiffCalc pos.course legCrs
      let nextRes := g.distanceMeterToLine pos.pos p1 p2
      if switchDecision g r.legs pos a nl activeRes nextRes courseDiff &&
          !(!r.shownMissed && (legAt r.legs nl).isMissed) then
        { r with
          activeLeg := nl
          activePos := pos
          activeLegResult := g.distanceMeterToLine pos.pos
            (getPositionAt r.legs (nl - 1)) (getPositionAt r.legs nl) }
      else
        { r with activeLeg := a, activePos := pos, activeLegResult := activeRes }
    else
      { r with activeLeg := a, activePos := pos, activeLegResult := activeRes }

/-- `Route::getActiveLegIndexCorrected` (route.cpp lines 735-755). The C++
leaves the out-parameter untouched when there is no active leg; the model
threads the caller's previous flag value through. -/
def getActiveLegIndexCorrected (r : Route) (corrected : Bool) : Int × Bool :=
  if r.activeLeg = INVALID_INDEX_VALUE then (INVALID_INDEX_VALUE, corrected)
  else
    let nextLeg := r.activeLeg + 1
    if nextLeg < (r.legs.length : Int) ∧ nextLeg = (r.legs.length : Int) ∧
        (legAt r.legs nextLeg).isAnyProcedure = true then
      (r.activeLeg + 1, true)
    else
      (r.activeLeg, false)

/-- `Route::isAirportAfterArrival` (route.cpp lines 785-789). -/
def isAirportAfterArrival (r : Route) (i : Int) : Bool :=
  (r.hasArrivalProcedure || r.hasStarProcedure) &&
  i == (r.legs.length : Int) - 1 &&
  (legAt r.legs i).mapObjectType == MapObjectType.AIRPORT

/-- Modelled from the spec (section 4.1; `routeleg.cpp` not under `src/`):
`RouteLeg::updateDistanceAndCourse` sets distance-to-previous from the
predecessor by great-circle distance; the first leg gets zero. -/
def RouteLeg.updateDistanceAndCourse (g : Geo) (l : RouteLeg)
    (prev : Option RouteLeg) : RouteLeg :=
  { l with
    distanceTo :=
      match prev with
      | none => 0
      | some p => g.distanceMeter p.position l.position }

/-- The loop of `Route::updateDistancesAndCourse` (route.cpp lines 791-806):
update each leg from its predecessor, accumulate non-missed distances, and
break at an airport-after-arrival leg (legs from there on are untouched). -/
def updDistGo (g : Geo) (r : Route) :
    List RouteLeg → Int → Option RouteLeg → List RouteLeg × ℚ
  | [], _, _ => ([], 0)
  | leg :: rest, i, prev =>
    if isAirportAfterArrival r i then (leg :: rest, 0)
    else
      let upd := leg.updateDistanceAndCourse g prev
      let res := updDistGo g r rest (i + 1) (some upd)
      (upd :: res.1, (if upd.isMissed then 0 else upd.distanceTo) + res.2)

/-- `Route::updateDistancesAndCourse` (route.cpp lines 791-806). -/
def updateDistancesAndCourse (g : Geo) (r : Route) : Route :=
  let res := updDistGo g r r.legs 0 none
  { r with legs := res.1, totalDistance := res.2 }

/-- `Route::updateAll` (route.cpp lines 702-708) restricted to the modelled
state: `updateIndices`, `updateMagvar` and `updateBoundingRect` touch only
fields (entry indices, magnetic variation, bounding rectangle) outside this
model. -/
def updateAll (g : Geo) (r : Route) : Route := updateDistancesAndCourse g r

/-- A procedure-category mask (`maptypes::MapObjectTypes` restricted to the
five procedure bits tested by `Route::eraseProcedureLegs`). -/
structure ProcMask where
  approach : Bool
  missed : Bool
  transition : Bool
  sid : Bool
  star : Bool
deriving DecidableEq, Repr

/-- The per-leg match of `Route::eraseProcedureLegs` (route.cpp lines
687-691). -/
def maskMatches (m : ProcMask) (l : RouteLeg) : Bool :=
  (m.approach && l.isApproach) || (m.missed && l.isMissed) ||
  (m.transition && l.isTransition) || (m.sid && l.isSid) ||
  (m.star && l.isStar)

/-- Modelled from the spec: `maptypes::PROCEDURE_STAR`. -/
def PROCEDURE_STAR_MASK : ProcMask := ⟨false, false, false, false, true⟩

/-- Modelled from the spec: `maptypes::PROCEDURE_DEPARTURE` (SID legs). -/
def PROCEDURE_DEPARTURE_MASK : ProcMask := ⟨false, false, false, true, false⟩

/-- Modelled from the spec: `maptypes::PROCEDURE_TRANSITION`. -/
def PROCEDURE_TRANSITION_MASK : ProcMask := ⟨false, false, true, false, false⟩

/-- Modelled from the spec: `maptypes::PROCEDURE_ARRIVAL` (approach, missed
and transition legs; spec section 4.3, arrival carries its transition). -/
def PROCEDURE_ARRIVAL_MASK : ProcMask := ⟨true, true, true, false, false⟩

/-- The descending index collection of `Route::eraseProcedureLegs`
(route.cpp lines 682-693): indices of matching legs, largest first. -/
def collectMatching (m : ProcMask) (ls : List RouteLeg) : List Nat :=
  (List.range ls.length).reverse.filter (fun i => maskMatches m (ls.getD i dfltLeg))

/-- Sequential `removeAt` over a list of indices (route.cpp lines 695-699). -/
def eraseIdxList {α : Type} (idxs : List Nat) (ls : List α) : List α :=
  idxs.foldl (fun acc i => acc.eraseIdx i) ls

/-- `Route::eraseProcedureLegs` (route.cpp lines 680-700): remove every leg
matching the mask, and the parallel flight-plan entries at the same
indices. -/
def eraseProcedureLegs (m : ProcMask) (r : Route) : Route :=
  let idxs := collectMatching m r.legs
  { r with legs := eraseIdxList idxs r.legs, entries := eraseIdxList idxs r.entries }

/-- `Route::clearStarProcedure` (route.cpp lines 587-596); the flight-plan
property map touched by `clearFlightplanProcedureProperties` is outside the
modelled state. -/
def clearStarProcedure (g : Geo) (r : Route) : Route :=
  if r.hasStarProcedure then
    updateAll g (eraseProcedureLegs PROCEDURE_STAR_MASK { r with starLegs := emptyProcLegs })
  else r

/-- `Route::clearDepartureProcedure` (route.cpp lines 598-607). -/
def clearDepartureProcedure (g : Geo) (r : Route) : Route :=
  if r.hasDepartureProcedure then
    updateAll g (eraseProcedureLegs PROCEDURE_DEPARTURE_MASK
      { r with departureLegs := emptyProcLegs })
  else r

/-- `Route::clearApproachAndTransProcedure` (route.cpp lines 565-574). -/
def clearApproachAndTransProcedure (g : Geo) (r : Route) : Route :=
  if r.hasArrivalProcedure then
    updateAll g (eraseProcedureLegs PROCEDURE_ARRIVAL_MASK
      { r with arrivalLegs := emptyProcLegs })
  else r

/-- `Route::clearTransitionProcedure` (route.cpp lines 576-585). -/
def clearTransitionProcedure (g : Geo) (r : Route) : Route :=
  if r.hasTransitionProcedure then
    updateAll g (eraseProcedureLegs PROCEDURE_TRANSITION_MASK
      { r with arrivalLegs := r.arrivalLegs.clearTransition })
  else r

/-- The leg-finding loop of `Route::positionAtDistance` (route.cpp lines
385-396): accumulate distances and stop inside the first leg whose running
total passes the requested distance. -/
def findPosLeg (ls : List RouteLeg) (d : ℚ) : Nat → Nat → ℚ → ℚ × Int
  | 0, _, total => (total, INVALID_INDEX_VALUE)
  | Nat.succ fuel, i, total =>
    if i < ls.length - 1 then
      if total + (legAt ls ((i : Int) + 1)).distanceTo > d then
        (total + (legAt ls ((i : Int) + 1)).distanceTo, (i : Int))
      else findPosLeg ls d fuel (i + 1) (total + (legAt ls ((i : Int) + 1)).distanceTo)
    else (total, INVALID_INDEX_VALUE)

/-- The approach-point skip of `Route::positionAtDistance` (route.cpp lines
414-416). -/
def skipApproachPoints (ls : List RouteLeg) : Nat → Int → Int
  | 0, j => j
  | Nat.succ fuel, j =>
    if (legAt ls j).isApproachPoint ∧ j < (ls.length : Int) then
      skipApproachPoints ls fuel (j + 1)
    else j

/-- `Route::positionAtDistance` (route.cpp lines 377-433). Rational division
stands in for float division away from the out-of-range guard. -/
def positionAtDistance (g : Geo) (r : Route) (distFromStartNm : ℚ) : Pos :=
  if distFromStartNm < 0 ∨ distFromStartNm > r.totalDistance then EMPTY_POS
  else
    let found := findPosLeg r.legs distFromStartNm r.legs.length 0 0
    let total := found.1
    let foundIndex := found.2
    if foundIndex < (r.legs.length : Int) - 1 then
      if !(legAt r.legs foundIndex).isAnyProcedure then
        let base := distFromStartNm - (total - (legAt r.legs (foundIndex + 1)).distanceTo)
        let fraction := base / (legAt r.legs (foundIndex + 1)).distanceTo
        g.interpolate (getPositionAt r.legs foundIndex)
          (getPositionAt r.legs (foundIndex + 1)) fraction
      else
        let fi := skipApproachPoints r.legs r.legs.length (foundIndex + 1)
        let base := distFromStartNm -
          (total - (legAt r.legs fi).approachLeg.calculatedDistance)
        let fraction := base / (legAt r.legs fi).approachLeg.calculatedDistance
        g.interpolateLS (legAt r.legs fi).approachLeg.geometry fraction
    else EMPTY_POS

/-- A concrete instance of the geometry collaborator: planar geometry for
axis-aligned segments (coordinates in meters, `y` grows north, `x` grows
east). Northbound and eastbound segments classify by the along-track
coordinate and report the planar signed cross-track; all other inputs
report the invalid classification, as the collaborator contract allows. -/
def northGeo : Geo where
  distanceMeterToLine := fun p a b =>
    if a.x = b.x ∧ a.y < b.y then
      ⟨if p.y < a.y then LineStatus.BEFORE_START
        else if p.y > b.y then LineStatus.AFTER_END
        else LineStatus.ALONG_TRACK,
        p.x - a.x, p.y - a.y, b.y - p.y⟩
    else if a.y = b.y ∧ a.x < b.x then
      ⟨if p.x < a.x then LineStatus.BEFORE_START
        else if p.x > b.x then LineStatus.AFTER_END
        else LineStatus.ALONG_TRACK,
        p.y - a.y, p.x - a.x, b.x - p.x⟩
    else
      ⟨LineStatus.INVALID, INVALID_DISTANCE_VALUE, INVALID_DISTANCE_VALUE,
        INVALID_DISTANCE_VALUE⟩
  angleDegTo := fun a b =>
    if a.x = b.x ∧ a.y < b.y then 0
    else if a.y = b.y ∧ a.x < b.x then 90
    else if a.x = b.x ∧ b.y < a.y then 180
    else if a.y = b.y ∧ b.x < a.x then 270
    else 0
  distanceMeter := fun p q =>
    if p.x = q.x then |q.y - p.y| else if p.y = q.y then |q.x - p.x| else 0
  interpolate := fun a b t => ⟨a.x + (b.x - a.x) * t, a.y + (b.y - a.y) * t, true⟩
  interpolateLS := fun _ _ => EMPTY_POS

/-- A degenerate instance of the geometry collaborator (everything invalid
or zero), for theorems whose inputs never consult the geometry. -/
def geoZero : Geo where
  distanceMeterToLine := fun _ _ _ => ⟨LineStatus.INVALID, 0, 0, 0⟩
  angleDegTo := fun _ _ => 0
  distanceMeter := fun _ _ => 0
  interpolate := fun _ _ _ => EMPTY_POS
  interpolateLS := fun _ _ => EMPTY_POS

/-- A valid position at planar meters `(x, y)`. -/
def mkPos (x y : ℚ) : Pos := ⟨x, y, true⟩

/-- A plain route leg at a position. -/
def plainLeg (x y : ℚ) : RouteLeg :=
  ⟨mkPos x y, MapObjectType.WAYPOINT, ProcCat.NONE, dfltApproachLeg, false, 0⟩

/-- A route in the base state used by the concrete scenarios: the given legs
and active index, no procedures, missed legs shown, total distance zero. -/
def mkRoute (ls : List RouteLeg) (a : Int) : Route :=
  { legs := ls
    entries := []
    activeLeg := a
    activeLegResult := ⟨LineStatus.INVALID, 0, 0, 0⟩
    activePos := emptyPosCourse
    totalDistance := 0
    shownMissed := true
    departureLegsOffset := INVALID_INDEX_VALUE
    starLegsOffset := INVALID_INDEX_VALUE
    arrivalLegsOffset := INVALID_INDEX_VALUE
    departureLegs := emptyProcLegs
    starLegs := emptyProcLegs
    arrivalLegs := emptyProcLegs }

/-- The C1 switch condition exactly as the spec words it (section 4.2, rules
5d/5e): the candidate's absolute cross-track must be smaller than the
active leg's *by more than* the margin. Stated for comparison with the
code's `isSmaller`. -/
def c1SpecSwitch (activeType : ApproachLegType) (activeRes nextRes : LineDistance)
    (courseDiff : ℚ) : Bool :=
  if activeType = ApproachLegType.PROCEDURE_TURN then
    decide (|nextRes.distance| < |activeRes.distance| - 100) && decide (courseDiff < 45)
  else
    (activeRes.status == LineStatus.AFTER_END) ||
    (decide (|nextRes.distance| < |activeRes.distance| - 10) && decide (courseDiff < 90))

/-- The C2 hold-exit condition exactly as the spec words it (section 4.2,
rule 5b): along-track on the hold helper line and signed distance beyond
the far boundary, with threshold +0.5 nm for right-turn holds and
-0.5 nm for left/other. Stated for comparison with the code. -/
def c2SpecSwitch (resultHold : LineDistance) (turnDirection : String) : Bool :=
  resultHold.status == LineStatus.ALONG_TRACK &&
  decide (resultHold.distance <
    nmToMeter (if turnDirection = "R" then (1/2 : ℚ) else -(1/2 : ℚ)))

/-- Concrete procedure-turn detail for the C1 scenario. -/
def procTurnDetail : MapProcedureLeg :=
  { dfltApproachLeg with type := ApproachLegType.PROCEDURE_TURN }

/-- C1 scenario: three legs, the active leg (index 1) is a procedure turn at
the corner of an east leg and a north leg. -/
def c1Route : Route :=
  mkRoute [plainLeg 0 0,
    { (plainLeg 1000 0) with procCat := ProcCat.APPROACH, approachLeg := procTurnDetail },
    plainLeg 1000 1000] 1

/-- C1 sample: past the corner, 60 m right of the active (east) leg and 50 m
right of the candidate (north) leg, heading north. -/
def c1Sample : PosCourse := ⟨mkPos 1050 60, 0⟩

/-- Hold detail of the C2 scenario: a right-turn hold whose helper line runs
north through the position. -/
def c2HoldDetail : MapProcedureLeg :=
  { dfltApproachLeg with
    type := ApproachLegType.HOLD_TO_FIX
    holdLine := (mkPos 0 500, mkPos 0 1500)
    turnDirection := "R" }

/-- Next-leg detail of the C2 scenario: its line starts away from the hold
point, so the differing-exit branch is taken. -/
def c2NextDetail : MapProcedureLeg :=
  { dfltApproachLeg with line := (mkPos 500 0, mkPos 0 2000) }

/-- C2 scenario: the active leg (index 1) is a right-turn hold with a
differing exit. -/
def c2Route : Route :=
  mkRoute [plainLeg 0 0,
    { (plainLeg 0 1000) with procCat := ProcCat.APPROACH, approachLeg := c2HoldDetail },
    { (plainLeg 0 2000) with procCat := ProcCat.APPROACH, approachLeg := c2NextDetail }] 1

/-- C2 sample: on the hold helper line (along-track, zero cross-track). -/
def c2Sample : PosCourse := ⟨mkPos 0 700, 0⟩

/-- C3 scenario: a three-leg route along the meridian with no active leg
seeded yet. -/
def c3Route : Route :=
  mkRoute [plainLeg 0 0, plainLeg 0 1000, plainLeg 0 2000] INVALID_INDEX_VALUE

/-- C3 sample: 200 km east of every segment — beyond the 100 nm limit. -/
def c3Sample : PosCourse := ⟨mkPos 200000 500, 0⟩

/-- C3 witness route: a north segment followed by an east segment. -/
def c3NearRoute : Route :=
  mkRoute [plainLeg 0 0, plainLeg 0 1000, plainLeg 1000 1000] INVALID_INDEX_VALUE

/-- C3 witness sample: 50 m from segment 1 but only 10 m from segment 2. -/
def c3NearSample : PosCourse := ⟨mkPos 50 990, 0⟩

/-- An airport leg for the scenarios. -/
def airportLeg (x y : ℚ) : RouteLeg :=
  { (plainLeg x y) with mapObjectType := MapObjectType.AIRPORT }

/-- A missed-approach leg for the scenarios. -/
def missedLeg (x y : ℚ) : RouteLeg := { (plainLeg x y) with procCat := ProcCat.MISSED }

/-- C4 scenario: departure airport, one en-route leg, one missed leg and a
destination airport behind an attached arrival procedure. -/
def c4Route : Route :=
  { (mkRoute [airportLeg 0 0, plainLeg 0 1000, missedLeg 0 2000, airportLeg 0 3000] 1) with
    arrivalLegs := ⟨1, 0⟩ }

/-- C5 scenario: any route with total distance 10 nm. -/
def c5Route : Route :=
  { (mkRoute [plainLeg 0 0, plainLeg 0 18520] 1) with totalDistance := 10 }

/-- C6 scenario: the position is past the active leg (a switch is indicated)
but the candidate next leg is a missed-approach leg and missed legs are
hidden. -/
def c6Route : Route :=
  { (mkRoute [plainLeg 0 0, plainLeg 0 1000, missedLeg 0 2000] 1) with shownMissed := false }

/-- C6 sample: beyond the end of the active segment, on course. -/
def c6Sample : PosCourse := ⟨mkPos 0 1500, 0⟩

/-- C7 scenario: departure airport, one SID leg, two STAR legs, one approach
leg and the destination airport, with all three procedure sets attached and
all three block offsets recorded. -/
def c7Route : Route :=
  { legs := [airportLeg 0 0, { (plainLeg 0 1000) with procCat := ProcCat.SID },
      { (plainLeg 0 2000) with procCat := ProcCat.STAR },
      { (plainLeg 0 3000) with procCat := ProcCat.STAR },
      { (plainLeg 0 4000) with procCat := ProcCat.APPROACH }, airportLeg 0 5000]
    entries := [⟨0⟩, ⟨1⟩, ⟨2⟩, ⟨3⟩, ⟨4⟩, ⟨5⟩]
    activeLeg := 1
    activeLegResult := ⟨LineStatus.INVALID, 0, 0, 0⟩
    activePos := emptyPosCourse
    totalDistance := 0
    shownMissed := true
    departureLegsOffset := 1
    starLegsOffset := 2
    arrivalLegsOffset := 4
    departureLegs := ⟨1, 0⟩
    starLegs := ⟨2, 0⟩
    arrivalLegs := ⟨1, 0⟩ }

/-- C8 scenario: four collinear legs; the sample sits two legs past the
active one, so each call catches up by one leg. -/
def c8Route : Route :=
  mkRoute [plainLeg 0 0, plainLeg 0 1000, plainLeg 0 2000, plainLeg 0 3000] 1

/-- C8 sample: abeam the fourth leg, heading north. -/
def c8Sample : PosCourse := ⟨mkPos 0 2500, 0⟩

/-- C10 scenario: a valid active leg on a two-leg route. -/
def c10Route : Route := mkRoute [plainLeg 0 0, plainLeg 0 1000] 1

lemma isEmpty_false_of_ne_nil {ls : List RouteLeg} (h : ls ≠ []) : ls.isEmpty = false := by
  cases ls with
  | nil => exact absurd rfl h
  | cons a t => rfl

lemma update_eq_reset (g : Geo) (r : Route) (pos : PosCourse)
    (h : r.legs = [] ∨ pos.isValid = false) :
    updateActiveLegAndPos g r pos = resetActive r := by
  unfold updateActiveLegAndPos
  rcases h with h | h
  · simp [h]
  · simp [h]

lemma update_eq_branch (g : Geo) (r : Route) (pos : PosCourse)
    (hne : r.legs ≠ []) (hv : pos.isValid = true)
    (hg : preSwitchIndex g r pos + 1 < (r.legs.length : Int)) :
    updateActiveLegAndPos g r pos =
      (if switchDecision g r.legs pos (preSwitchIndex g r pos)
            (candidateNextLeg r.legs (preSwitchIndex g r pos))
            (computeActiveResult g r.legs pos.pos (preSwitchIndex g r pos))
            (g.distanceMeterToLine pos.pos
              (getPositionAt r.legs (candidateNextLeg r.legs (preSwitchIndex g r pos) - 1))
              (getPositionAt r.legs (candidateNextLeg r.legs (preSwitchIndex g r pos))))
            (courseDiffCalc pos.course (normalizeCourse (g.angleDegTo
              (getPositionAt r.legs (candidateNextLeg r.legs (preSwitchIndex g r pos) - 1))
              (getPositionAt r.legs (candidateNextLeg r.legs (preSwitchIndex g r pos)))))) &&
          !(!r.shownMissed &&
            (legAt r.legs (candidateNextLeg r.legs (preSwitchIndex g r pos))).isMissed) then
        { r with
          activeLeg := candidateNextLeg r.legs (preSwitchIndex g r pos)
          activePos := pos
          activeLegResult := g.distanceMeterToLine pos.pos
            (getPositionAt r.legs (candidateNextLeg r.legs (preSwitchIndex g r pos) - 1))
            (getPositionAt r.legs (candidateNextLeg r.legs (preSwitchIndex g r pos))) }
      else
        { r with
          activeLeg := preSwitchIndex g r pos
          activePos := pos
          activeLegResult := computeActiveResult g r.legs pos.pos (preSwitchIndex g r pos) }) := by
  unfold updateActiveLegAndPos
  simp only [isEmpty_false_of_ne_nil hne, hv, Bool.not_true, Bool.or_false, Bool.false_eq_true,
    if_false]
  rw [if_pos hg]

lemma update_eq_nonext (g : Geo) (r : Route) (pos : PosCourse)
    (hne : r.legs ≠ []) (hv : pos.isValid = true)
    (hg : ¬(preSwitchIndex g r pos + 1 < (r.legs.length : Int))) :
    updateActiveLegAndPos g r pos =
      { r with
        activeLeg := preSwitchIndex g r pos
        activePos := pos
        activeLegResult := computeActiveResult g r.legs pos.pos (preSwitchIndex g r pos) } := by
  unfold updateActiveLegAndPos
  simp only [isEmpty_false_of_ne_nil hne, hv, Bool.not_true, Bool.or_false, Bool.false_eq_true,
    if_false]
  rw [if_neg hg]

/-- C9: on an empty route or an invalid position sample the update resets the
active-leg state: invalid active index, invalid line-distance result with
invalid distances, cleared sample; the model is a total function, so no
exception is possible. -/
theorem c9_invalid_input_resets (g : Geo) (r : Route) (pos : PosCourse)
    (h : r.legs = [] ∨ pos.isValid = false) :
    (updateActiveLegAndPos g r pos).activeLeg = INVALID_INDEX_VALUE ∧
    (updateActiveLegAndPos g r pos).activeLegResult =
      ⟨LineStatus.INVALID, INVALID_DISTANCE_VALUE, INVALID_DISTANCE_VALUE,
        INVALID_DISTANCE_VALUE⟩ ∧
    (updateActiveLegAndPos g r pos).activePos = emptyPosCourse := by
  rw [update_eq_reset g r pos h]
  exact ⟨rfl, rfl, rfl⟩

/-- Witness for C9 at the empty route. -/
theorem c9_invalid_input_resets_witness :
    ((mkRoute [] 1).legs = [] ∨ (PosCourse.mk (mkPos 0 0) 0).isValid = false) ∧
    (updateActiveLegAndPos geoZero (mkRoute [] 1) (PosCourse.mk (mkPos 0 0) 0)).activeLeg =
      INVALID_INDEX_VALUE :=
  ⟨Or.inl rfl,
    (c9_invalid_input_resets geoZero (mkRoute [] 1) (PosCourse.mk (mkPos 0 0) 0) (Or.inl rfl)).1⟩

/-- C10: whenever the active index is valid, `getActiveLegIndexCorrected`
returns it unchanged with `corrected = false`; the correction branch needs
`nextLeg < size` and `nextLeg = size` at once, which is unsatisfiable. -/
theorem c10_corrected_branch_dead (r : Route) (c : Bool)
    (h : r.activeLeg ≠ INVALID_INDEX_VALUE) :
    getActiveLegIndexCorrected r c = (r.activeLeg, false) := by
  unfold getActiveLegIndexCorrected
  rw [if_neg h, if_neg]
  rintro ⟨h1, h2, -⟩
  omega

/-- Witness for C10 on a two-leg route with active index 1. -/
theorem c10_corrected_branch_dead_witness :
    c10Route.activeLeg ≠ INVALID_INDEX_VALUE ∧
    getActiveLegIndexCorrected c10Route false = (1, false) :=
  ⟨by decide, by rw [c10_corrected_branch_dead c10Route false (by decide)]; decide⟩

/-- C5: `positionAtDistance` returns the explicit empty/invalid position for
every negative distance and every distance beyond the route total; the
result carries the validity flag the caller must check, and the model is a
total function, so no error is raised. -/
theorem c5_out_of_range_empty (g : Geo) (r : Route) (d : ℚ)
    (h : d < 0 ∨ d > r.totalDistance) :
    positionAtDistance g r d = EMPTY_POS ∧ (positionAtDistance g r d).valid = false := by
  unfold positionAtDistance
  rw [if_pos h]
  exact ⟨rfl, rfl⟩

/-- Witness for C5 at distance 50 nm on a 10 nm route. -/
theorem c5_out_of_range_empty_witness :
    ((50 : ℚ) < 0 ∨ (50 : ℚ) > c5Route.totalDistance) ∧
    positionAtDistance geoZero c5Route 50 = EMPTY_POS :=
  ⟨Or.inr (by decide),
    (c5_out_of_range_empty geoZero c5Route 50 (Or.inr (by decide))).1⟩

lemma candidateNextLeg_not_hold (ls : List RouteLeg) (a : Int)
    (h : (legAt ls a).isHold = false) : candidateNextLeg ls a = a + 1 := by
  unfold candidateNextLeg
  simp [h]

lemma switchDecision_plain_iff (g : Geo) (ls : List RouteLeg) (p : PosCourse)
    (a nl : Int) (activeRes nextRes : LineDistance) (cd : ℚ)
    (hah : (legAt ls a).isHold = false) (hnh : (legAt ls nl).isHold = false) :
    switchDecision g ls p a nl activeRes nextRes cd = true ↔
      (if (legAt ls a).getApproachLegType = ApproachLegType.PROCEDURE_TURN then
        |nextRes.distance| < |activeRes.distance| + 100 ∧ cd < 45
      else
        activeRes.status = LineStatus.AFTER_END ∨
          (|nextRes.distance| < |activeRes.distance| + 10 ∧ cd < 90)) := by
  unfold switchDecision isSmaller
  simp only [hah, hnh, Bool.false_eq_true, if_false]
  by_cases hpt : (legAt ls a).getApproachLegType = ApproachLegType.PROCEDURE_TURN
  · simp [hpt]
  · simp [hpt, beq_iff_eq]

/-- C1 (amended): for a plain or procedure-turn active leg with a non-hold
next leg (and no missed-leg veto in effect), the switch happens exactly
when the code's fuzzy comparison holds — the candidate's absolute
cross-track is smaller than the active leg's *plus* the margin (100 m for a
procedure turn together with course difference below 45 degrees; 10 m for a
plain leg together with course difference below 90 degrees, or the active
classification is after-end). The margin is a tolerance added to the active
distance, not a required undercut. -/
theorem c1_switch_margin_amended (g : Geo) (r : Route) (pos : PosCourse) (a : Int)
    (hv : pos.isValid = true) (hne : r.legs ≠ [])
    (ha : preSwitchIndex g r pos = a)
    (hg : a + 1 < (r.legs.length : Int))
    (hah : (legAt r.legs a).isHold = false)
    (hnh : (legAt r.legs (a + 1)).isHold = false)
    (hveto : r.shownMissed = true ∨ (legAt r.legs (a + 1)).isMissed = false) :
    ((updateActiveLegAndPos g r pos).activeLeg = a + 1) ↔
      (if (legAt r.legs a).getApproachLegType = ApproachLegType.PROCEDURE_TURN then
        |(g.distanceMeterToLine pos.pos (getPositionAt r.legs a)
            (getPositionAt r.legs (a + 1))).distance| <
          |(computeActiveResult g r.legs pos.pos a).distance| + 100 ∧
        courseDiffCalc pos.course (normalizeCourse (g.angleDegTo (getPositionAt r.legs a)
          (getPositionAt r.legs (a + 1)))) < 45
      else
        (computeActiveResult g r.legs pos.pos a).status = LineStatus.AFTER_END ∨
          (|(g.distanceMeterToLine pos.pos (getPositionAt r.legs a)
              (getPositionAt r.legs (a + 1))).distance| <
            |(computeActiveResult g r.legs pos.pos a).distance| + 10 ∧
           courseDiffCalc pos.course (normalizeCourse (g.angleDegTo (getPositionAt r.legs a)
             (getPositionAt r.legs (a + 1)))) < 90)) := by
  subst ha
  rw [update_eq_branch g r pos hne hv hg]
  rw [candidateNextLeg_not_hold r.legs _ hah]
  simp only [add_sub_cancel_right]
  have hveto' : (!(!r.shownMissed &&
      (legAt r.legs (preSwitchIndex g r pos + 1)).isMissed)) = true := by
    rcases hveto with h | h <;> simp [h]
  rw [hveto', Bool.and_true]
  have hiff := switchDecision_plain_iff g r.legs pos (preSwitchIndex g r pos)
    (preSwitchIndex g r pos + 1)
    (computeActiveResult g r.legs pos.pos (preSwitchIndex g r pos))
    (g.distanceMeterToLine pos.pos (getPositionAt r.legs (preSwitchIndex g r pos))
      (getPositionAt r.legs (preSwitchIndex g r pos + 1)))
    (courseDiffCalc pos.course (normalizeCourse (g.angleDegTo
      (getPositionAt r.legs (preSwitchIndex g r pos))
      (getPositionAt r.legs (preSwitchIndex g r pos + 1))))) hah hnh
  cases hsw : switchDecision g r.legs pos (preSwitchIndex g r pos)
      (preSwitchIndex g r pos + 1)
      (computeActiveResult g r.legs pos.pos (preSwitchIndex g r pos))
      (g.distanceMeterToLine pos.pos (getPositionAt r.legs (preSwitchIndex g r pos))
        (getPositionAt r.legs (preSwitchIndex g r pos + 1)))
      (courseDiffCalc pos.course (normalizeCourse (g.angleDegTo
        (getPositionAt r.legs (preSwitchIndex g r pos))
        (getPositionAt r.legs (preSwitchIndex g r pos + 1))))) with
  | false =>
    rw [hsw] at hiff
    simp only [hsw, Bool.false_eq_true, if_false]
    constructor
    · intro h
      exact absurd h (by omega)
    · intro h
      exact absurd (hiff.mpr h) (by simp)
  | true =>
    rw [hsw] at hiff
    simp only [hsw, if_true]
    constructor
    · intro _
      exact hiff.mp rfl
    · intro _
      trivial

/-- C1 counterexample: at a concrete procedure-turn state the code switches
to the next leg (candidate cross-track 50 m, active 60 m, course difference
0), while the spec's wording — smaller by more than a 100 m margin —
evaluates to false. -/
theorem c1_margin_counterexample :
    (updateActiveLegAndPos northGeo c1Route c1Sample).activeLeg = 2 ∧
    c1SpecSwitch (legAt c1Route.legs 1).getApproachLegType
      (computeActiveResult northGeo c1Route.legs c1Sample.pos 1)
      (northGeo.distanceMeterToLine c1Sample.pos (getPositionAt c1Route.legs 1)
        (getPositionAt c1Route.legs 2))
      (courseDiffCalc c1Sample.course (normalizeCourse (northGeo.angleDegTo
        (getPositionAt c1Route.legs 1) (getPositionAt c1Route.legs 2)))) = false := by
  exact ⟨by with_unfolding_all decide, by with_unfolding_all decide⟩

/-- Witness for the amended C1 at the concrete procedure-turn state. -/
theorem c1_switch_margin_amended_witness :
    (updateActiveLegAndPos northGeo c1Route c1Sample).activeLeg = 1 + 1 :=
  (c1_switch_margin_amended northGeo c1Route c1Sample 1 (by decide) (by decide)
    (by with_unfolding_all decide) (by decide) (by decide) (by decide)
    (Or.inl (by decide))).mpr (by with_unfolding_all decide)

lemma skipInitialFix_ge (ls : List RouteLeg) : ∀ (fuel : Nat) (j : Int),
    j ≤ skipInitialFix ls fuel j := by
  intro fuel
  induction fuel with
  | zero => intro j; exact le_refl j
  | succ n ih =>
    intro j
    unfold skipInitialFix
    split
    · exact le_trans (by omega) (ih (j + 1))
    · exact le_refl j

lemma candidateNextLeg_ge (ls : List RouteLeg) (a : Int) :
    a + 1 ≤ candidateNextLeg ls a := by
  unfold candidateNextLeg
  split
  · exact skipInitialFix_ge ls ls.length (a + 1)
  · exact le_refl (a + 1)

lemma switchDecision_hold_differ_iff (g : Geo) (ls : List RouteLeg) (p : PosCourse)
    (a nl : Int) (activeRes nextRes : LineDistance) (cd : ℚ)
    (hh : (legAt ls a).isHold = true)
    (hd : (legAt ls nl).approachLeg.line.1 ≠ (legAt ls a).position) :
    switchDecision g ls p a nl activeRes nextRes cd = true ↔
      ((g.distanceMeterToLine p.pos (legAt ls a).approachLeg.holdLine.1
          (legAt ls a).approachLeg.holdLine.2).status = LineStatus.ALONG_TRACK ∧
       (g.distanceMeterToLine p.pos (legAt ls a).approachLeg.holdLine.1
          (legAt ls a).approachLeg.holdLine.2).distance <
         nmToMeter (if (legAt ls a).approachLeg.turnDirection = "R"
           then -(1/2 : ℚ) else (1/2 : ℚ))) := by
  unfold switchDecision
  simp only [hh, if_true]
  rw [if_neg (by simpa [beq_iff_eq] using hd)]
  simp [Bool.and_eq_true, decide_eq_true_eq, beq_iff_eq]

/-- C2 (amended): for an active hold whose exit point differs from the next
leg's start, the switch happens exactly when the position classifies
along-track against the hold's helper line and the signed distance is less
than the boundary threshold — which is −0.5 nm for a right-turn hold and
+0.5 nm for a left or other turn direction (the opposite assignment to the
claim's). -/
theorem c2_hold_exit_amended (g : Geo) (r : Route) (pos : PosCourse) (a nl : Int)
    (hv : pos.isValid = true) (hne : r.legs ≠ [])
    (ha : preSwitchIndex g r pos = a)
    (hg : a + 1 < (r.legs.length : Int))
    (hh : (legAt r.legs a).isHold = true)
    (hnl : candidateNextLeg r.legs a = nl)
    (hd : (legAt r.legs nl).approachLeg.line.1 ≠ (legAt r.legs a).position)
    (hveto : r.shownMissed = true ∨ (legAt r.legs nl).isMissed = false) :
    ((updateActiveLegAndPos g r pos).activeLeg = nl) ↔
      ((g.distanceMeterToLine pos.pos (legAt r.legs a).approachLeg.holdLine.1
          (legAt r.legs a).approachLeg.holdLine.2).status = LineStatus.ALONG_TRACK ∧
       (g.distanceMeterToLine pos.pos (legAt r.legs a).approachLeg.holdLine.1
          (legAt r.legs a).approachLeg.holdLine.2).distance <
         nmToMeter (if (legAt r.legs a).approachLeg.turnDirection = "R"
           then -(1/2 : ℚ) else (1/2 : ℚ))) := by
  subst ha
  have hge : preSwitchIndex g r pos + 1 ≤ nl := hnl ▸ candidateNextLeg_ge r.legs _
  rw [update_eq_branch g r pos hne hv hg]
  rw [hnl]
  have hveto' : (!(!r.shownMissed && (legAt r.legs nl).isMissed)) = true := by
    rcases hveto with h | h <;> simp [h]
  rw [hveto', Bool.and_true]
  have hiff := switchDecision_hold_differ_iff g r.legs pos (preSwitchIndex g r pos) nl
    (computeActiveResult g r.legs pos.pos (preSwitchIndex g r pos))
    (g.distanceMeterToLine pos.pos (getPositionAt r.legs (nl - 1)) (getPositionAt r.legs nl))
    (courseDiffCalc pos.course (normalizeCourse (g.angleDegTo
      (getPositionAt r.legs (nl - 1)) (getPositionAt r.legs nl)))) hh hd
  cases hsw : switchDecision g r.legs pos (preSwitchIndex g r pos) nl
      (computeActiveResult g r.legs pos.pos (preSwitchIndex g r pos))
      (g.distanceMeterToLine pos.pos (getPositionAt r.legs (nl - 1)) (getPositionAt r.legs nl))
      (courseDiffCalc pos.course (normalizeCourse (g.angleDegTo
        (getPositionAt r.legs (nl - 1)) (getPositionAt r.legs nl)))) with
  | false =>
    rw [hsw] at hiff
    simp only [hsw, Bool.false_eq_true, if_false]
    constructor
    · intro h
      exact absurd h (by omega)
    · intro h
      exact absurd (hiff.mpr h) (by simp)
  | true =>
    rw [hsw] at hiff
    simp only [hsw, if_true]
    constructor
    · intro _
      exact hiff.mp rfl
    · intro _
      trivial

/-- C2 counterexample: at a concrete right-turn hold with differing exit,
the spec's condition with its +0.5 nm right-turn threshold evaluates to
true (position along-track on the helper line at signed distance 0 <
+926 m), yet the code does not switch: the code compares against −0.5 nm
for right turns. -/
theorem c2_hold_boundary_counterexample :
    c2SpecSwitch (northGeo.distanceMeterToLine c2Sample.pos
        (legAt c2Route.legs 1).approachLeg.holdLine.1
        (legAt c2Route.legs 1).approachLeg.holdLine.2)
      (legAt c2Route.legs 1).approachLeg.turnDirection = true ∧
    (updateActiveLegAndPos northGeo c2Route c2Sample).activeLeg = 1 := by
  exact ⟨by with_unfolding_all decide, by with_unfolding_all decide⟩

/-- A second sample for the C2 hold: west of the helper line, beyond the
−0.5 nm boundary of the right-turn hold, so the code does exit the hold. -/
def c2ExitSample : PosCourse := ⟨mkPos (-1000) 700, 0⟩

/-- Witness for the amended C2: the exit fires at signed distance −1000 m <
−926 m on the right-turn hold. -/
theorem c2_hold_exit_amended_witness :
    (updateActiveLegAndPos northGeo c2Route c2ExitSample).activeLeg = 2 :=
  (c2_hold_exit_amended northGeo c2Route c2ExitSample 1 2 (by decide) (by decide)
    (by with_unfolding_all decide) (by decide) (by decide)
    (by with_unfolding_all decide) (by decide) (Or.inl (by decide))).mpr
    (by with_unfolding_all decide)

/-- C6: while the display filter suppresses missed-approach legs, an
indicated switch onto a missed candidate leg is vetoed — the update leaves
the active index at its pre-switch value, never moving onto the missed
leg. -/
theorem c6_missed_switch_vetoed (g : Geo) (r : Route) (pos : PosCourse)
    (hv : pos.isValid = true) (hne : r.legs ≠ [])
    (hm : r.shownMissed = false)
    (hmiss : (legAt r.legs
      (candidateNextLeg r.legs (preSwitchIndex g r pos))).isMissed = true) :
    (updateActiveLegAndPos g r pos).activeLeg = preSwitchIndex g r pos := by
  by_cases hg : preSwitchIndex g r pos + 1 < (r.legs.length : Int)
  · rw [update_eq_branch g r pos hne hv hg]
    rw [hm, hmiss]
    simp
  · rw [update_eq_nonext g r pos hne hv hg]

/-- Witness for C6: a concrete state whose decision table indicates a switch
(active classification after-end), with a missed candidate and the filter
suppressing missed legs; the active index stays at 1. -/
theorem c6_missed_switch_vetoed_witness :
    c6Route.shownMissed = false ∧
    (legAt c6Route.legs
      (candidateNextLeg c6Route.legs (preSwitchIndex northGeo c6Route c6Sample))).isMissed
      = true ∧
    (updateActiveLegAndPos northGeo c6Route c6Sample).activeLeg = 1 :=
  ⟨by decide, by with_unfolding_all decide,
    by
      rw [c6_missed_switch_vetoed northGeo c6Route c6Sample (by decide) (by decide)
        (by decide) (by with_unfolding_all decide)]
      with_unfolding_all decide⟩

lemma nearestScan_zero (g : Geo) (ls : List RouteLeg) (p : Pos) (i : Nat)
    (minD ct : ℚ) (idx : Int) : nearestScan g ls p 0 i minD ct idx = (ct, idx) := rfl

lemma nearestScan_succ (g : Geo) (ls : List RouteLeg) (p : Pos) (fuel i : Nat)
    (minD ct : ℚ) (idx : Int) :
    nearestScan g ls p (fuel + 1) i minD ct idx =
      if i < ls.length then
        if (segDist g ls p i).status ≠ LineStatus.INVALID ∧
            |(segDist g ls p i).distance| < minD then
          nearestScan g ls p fuel (i + 1) |(segDist g ls p i).distance|
            (segDist g ls p i).distance i
        else
          nearestScan g ls p fuel (i + 1) minD ct idx
      else (ct, idx) := rfl

lemma nearestScan_post (g : Geo) (ls : List RouteLeg) (p : Pos) :
    ∀ (fuel i : Nat) (minD ct : ℚ) (idx : Int),
    1 ≤ i →
    ls.length ≤ i + fuel →
    (∀ j : Nat, 1 ≤ j → j < i → (segDist g ls p j).status ≠ LineStatus.INVALID →
      minD ≤ |(segDist g ls p j).distance|) →
    ((idx = INVALID_INDEX_VALUE ∧ ct = INVALID_DISTANCE_VALUE ∧
        minD = INVALID_DISTANCE_VALUE) ∨
      (∃ k : Nat, 1 ≤ k ∧ k < i ∧ k < ls.length ∧ idx = (k : Int) ∧
        (segDist g ls p k).status ≠ LineStatus.INVALID ∧
        ct = (segDist g ls p k).distance ∧ minD = |ct| ∧
        |ct| < INVALID_DISTANCE_VALUE)) →
    (((nearestScan g ls p fuel i minD ct idx).2 = INVALID_INDEX_VALUE ∧
        (nearestScan g ls p fuel i minD ct idx).1 = INVALID_DISTANCE_VALUE) ∨
      (∃ k : Nat, 1 ≤ k ∧ k < ls.length ∧
        (nearestScan g ls p fuel i minD ct idx).2 = (k : Int) ∧
        (segDist g ls p k).status ≠ LineStatus.INVALID ∧
        (nearestScan g ls p fuel i minD ct idx).1 = (segDist g ls p k).distance ∧
        |(nearestScan g ls p fuel i minD ct idx).1| < INVALID_DISTANCE_VALUE ∧
        (∀ j : Nat, 1 ≤ j → j < ls.length →
          (segDist g ls p j).status ≠ LineStatus.INVALID →
          |(nearestScan g ls p fuel i minD ct idx).1| ≤ |(segDist g ls p j).distance|))) := by
  intro fuel
  induction fuel with
  | zero =>
    intro i minD ct idx h1 hlen hInv1 hInv2
    rw [nearestScan_zero]
    rcases hInv2 with ⟨hidx, hct, -⟩ | ⟨k, hk1, hki, hklen, hidx, hstat, hct, hminD, hlt⟩
    · exact Or.inl ⟨hidx, hct⟩
    · refine Or.inr ⟨k, hk1, hklen, hidx, hstat, hct, by rw [hct] at hlt ⊢; exact hlt, ?_⟩
      intro j hj1 hjlen hjstat
      have hji : j < i := by omega
      have := hInv1 j hj1 hji hjstat
      calc |(ct, idx).1| = minD := by rw [hminD]
        _ ≤ |(segDist g ls p j).distance| := this
  | succ n ih =>
    intro i minD ct idx h1 hlen hInv1 hInv2
    rw [nearestScan_succ]
    by_cases hi : i < ls.length
    · rw [if_pos hi]
      have hminD_le : minD ≤ INVALID_DISTANCE_VALUE := by
        rcases hInv2 with ⟨-, -, h⟩ | ⟨k, -, -, -, -, -, -, hminD, hlt⟩
        · exact le_of_eq h
        · rw [hminD]; exact le_of_lt hlt
      by_cases hc : (segDist g ls p i).status ≠ LineStatus.INVALID ∧
          |(segDist g ls p i).distance| < minD
      · rw [if_pos hc]
        apply ih (i + 1) _ _ _ (by omega) (by omega)
        · intro j hj1 hji hjstat
          rcases Nat.lt_or_ge j i with hj | hj
          · exact le_trans (le_of_lt hc.2) (hInv1 j hj1 hj hjstat)
          · have : j = i := by omega
            rw [this]
        · refine Or.inr ⟨i, h1, by omega, hi, rfl, hc.1, rfl, rfl, ?_⟩
          exact lt_of_lt_of_le hc.2 hminD_le
      · rw [if_neg hc]
        apply ih (i + 1) _ _ _ (by omega) (by omega)
        · intro j hj1 hji hjstat
          rcases Nat.lt_or_ge j i with hj | hj
          · exact hInv1 j hj1 hj hjstat
          · have hj' : j = i := by omega
            rw [hj'] at hjstat ⊢
            rcases not_and_or.mp hc with h | h
            · exact absurd hjstat h
            · exact le_of_not_lt h
        · rcases hInv2 with h | ⟨k, hk1, hki, hklen, hrest⟩
          · exact Or.inl h
          · exact Or.inr ⟨k, hk1, by omega, hklen, hrest⟩
    · rw [if_neg hi]
      rcases hInv2 with ⟨hidx, hct, -⟩ | ⟨k, hk1, hki, hklen, hidx, hstat, hct, hminD, hlt⟩
      · exact Or.inl ⟨hidx, hct⟩
      · refine Or.inr ⟨k, hk1, hklen, hidx, hstat, hct, by rw [hct] at hlt ⊢; exact hlt, ?_⟩
        intro j hj1 hjlen hjstat
        have hji : j < i := by omega
        have := hInv1 j hj1 hji hjstat
        calc |(ct, idx).1| = minD := by rw [hminD]
          _ ≤ |(segDist g ls p j).distance| := this

lemma nearestAllLegIndex_post (g : Geo) (r : Route) (pos : PosCourse)
    (hv : pos.isValid = true) :
    ((nearestAllLegIndex g r pos).2 = INVALID_INDEX_VALUE) ∨
    (∃ k : Nat, 1 ≤ k ∧ k < r.legs.length ∧
      (nearestAllLegIndex g r pos).2 = (k : Int) ∧
      (segDist g r.legs pos.pos k).status ≠ LineStatus.INVALID ∧
      (nearestAllLegIndex g r pos).1 = (segDist g r.legs pos.pos k).distance ∧
      |(nearestAllLegIndex g r pos).1| ≤ nmToMeter 100 ∧
      (∀ j : Nat, 1 ≤ j → j < r.legs.length →
        (segDist g r.legs pos.pos j).status ≠ LineStatus.INVALID →
        |(nearestAllLegIndex g r pos).1| ≤ |(segDist g r.legs pos.pos j).distance|)) := by
  have hpost := nearestScan_post g r.legs pos.pos r.legs.length 1 INVALID_DISTANCE_VALUE
    INVALID_DISTANCE_VALUE INVALID_INDEX_VALUE (le_refl 1) (by omega)
    (by intro j hj1 hji _; omega)
    (Or.inl ⟨rfl, rfl, rfl⟩)
  unfold nearestAllLegIndex
  simp only [hv, Bool.not_true, Bool.false_eq_true, if_false]
  rcases hpost with ⟨hidx, hct⟩ | ⟨k, hk1, hklen, hidx, hstat, hct, hlt, hmin⟩
  · have hnlt : ¬((nearestScan g r.legs pos.pos r.legs.length 1 INVALID_DISTANCE_VALUE
        INVALID_DISTANCE_VALUE INVALID_INDEX_VALUE).1 < INVALID_DISTANCE_VALUE) := by
      rw [hct]
      exact lt_irrefl _
    rw [if_neg hnlt]
    exact Or.inl hidx
  · have hlt' : (nearestScan g r.legs pos.pos r.legs.length 1 INVALID_DISTANCE_VALUE
        INVALID_DISTANCE_VALUE INVALID_INDEX_VALUE).1 < INVALID_DISTANCE_VALUE :=
      lt_of_le_of_lt (le_abs_self _) hlt
    rw [if_pos hlt']
    by_cases hfar : |(nearestScan g r.legs pos.pos r.legs.length 1 INVALID_DISTANCE_VALUE
        INVALID_DISTANCE_VALUE INVALID_INDEX_VALUE).1| > nmToMeter 100
    · rw [if_pos hfar]
      exact Or.inl rfl
    · rw [if_neg hfar]
      exact Or.inr ⟨k, hk1, hklen, hidx, hstat, hct, le_of_not_lt hfar, hmin⟩

/-- C3 (amended): with no active leg yet, the update seeds the active index
with the nearest-segment index — the minimum absolute cross-track over all
consecutive leg pairs with non-invalid classification, within 100 nm — when
one exists; but when no segment lies within 100 nautical miles the invalid
seed is clamped to the last leg index, so the route ends in
`ActiveLeg(size - 1)` rather than `NoActiveLeg`. -/
theorem c3_seed_nearest_amended (g : Geo) (r : Route) (pos : PosCourse)
    (hv : pos.isValid = true) (hne : r.legs ≠ [])
    (hseed : r.activeLeg = INVALID_INDEX_VALUE)
    (hn : (r.legs.length : Int) < INVALID_INDEX_VALUE) :
    ((nearestAllLegIndex g r pos).2 ≠ INVALID_INDEX_VALUE →
      seedIndex g r pos = (nearestAllLegIndex g r pos).2 ∧
      (∃ k : Nat, 1 ≤ k ∧ k < r.legs.length ∧
        (nearestAllLegIndex g r pos).2 = (k : Int) ∧
        (segDist g r.legs pos.pos k).status ≠ LineStatus.INVALID ∧
        |(segDist g r.legs pos.pos k).distance| ≤ nmToMeter 100 ∧
        (∀ j : Nat, 1 ≤ j → j < r.legs.length →
          (segDist g r.legs pos.pos j).status ≠ LineStatus.INVALID →
          |(segDist g r.legs pos.pos k).distance| ≤
            |(segDist g r.legs pos.pos j).distance|))) ∧
    ((nearestAllLegIndex g r pos).2 = INVALID_INDEX_VALUE → 2 ≤ r.legs.length →
      (updateActiveLegAndPos g r pos).activeLeg = (r.legs.length : Int) - 1) := by
  constructor
  · intro hfound
    have hseedEq : seedIndex g r pos = (nearestAllLegIndex g r pos).2 := by
      unfold seedIndex
      rw [if_pos hseed]
    refine ⟨hseedEq, ?_⟩
    rcases nearestAllLegIndex_post g r pos hv with h | ⟨k, hk1, hklen, hidx, hstat, hct, hle, hmin⟩
    · exact absurd h hfound
    · refine ⟨k, hk1, hklen, hidx, hstat, by rw [← hct]; exact hle, ?_⟩
      intro j hj1 hjlen hjstat
      rw [← hct]
      exact hmin j hj1 hjlen hjstat
  · intro hnil hlen2
    have hpre : preSwitchIndex g r pos = (r.legs.length : Int) - 1 := by
      unfold preSwitchIndex clampSize seedIndex
      rw [if_pos hseed, hnil]
      rw [if_pos (by omega : INVALID_INDEX_VALUE ≥ (r.legs.length : Int))]
      rw [if_neg (by omega : ¬(r.legs.length = 1))]
      rw [if_neg (by omega : ¬((r.legs.length : Int) - 1 = 0))]
    rw [update_eq_nonext g r pos hne hv (by rw [hpre]; omega)]
    exact hpre

/-- C3 counterexample: a three-leg route with every segment about 108 nm
away from the sample (cross-track 200 km > 100 nm): the nearest-segment
search returns the invalid index, yet the update ends with active index 2
(the last leg), not the `NoActiveLeg` state. -/
theorem c3_no_active_leg_counterexample :
    (nearestAllLegIndex northGeo c3Route c3Sample).2 = INVALID_INDEX_VALUE ∧
    |(segDist northGeo c3Route.legs c3Sample.pos 1).distance| > nmToMeter 100 ∧
    |(segDist northGeo c3Route.legs c3Sample.pos 2).distance| > nmToMeter 100 ∧
    (updateActiveLegAndPos northGeo c3Route c3Sample).activeLeg = 2 ∧
    (2 : Int) ≠ INVALID_INDEX_VALUE := by
  with_unfolding_all decide

/-- Witness for the amended C3: a route whose segment 2 is strictly nearest
(10 m against 50 m), so the seed is 2. -/
theorem c3_seed_nearest_amended_witness :
    (nearestAllLegIndex northGeo c3NearRoute c3NearSample).2 = 2 ∧
    seedIndex northGeo c3NearRoute c3NearSample = 2 := by
  constructor
  · with_unfolding_all decide
  · have h := ((c3_seed_nearest_amended northGeo c3NearRoute c3NearSample (by decide)
      (by decide) (by decide) (by decide)).1 (by with_unfolding_all decide)).1
    rw [h]
    with_unfolding_all decide

/-- The claim's sum (spec section 8): `getDistanceTo` over the legs that are
not missed-approach legs and precede any trailing airport-after-arrival
sentinel (the airport-after-arrival test can only fire at the trailing
index). -/
def sumNonMissedBefore (r : Route) : List RouteLeg → Int → ℚ
  | [], _ => 0
  | leg :: rest, i =>
    if isAirportAfterArrival r i then 0
    else (if leg.isMissed then 0 else leg.distanceTo) + sumNonMissedBefore r rest (i + 1)

/-- The claim's sum over a route's own (post-pass) legs. -/
def specTotalDistance (r : Route) : ℚ := sumNonMissedBefore r r.legs 0

lemma updDistGo_nil (g : Geo) (r : Route) (i : Int) (prev : Option RouteLeg) :
    updDistGo g r [] i prev = ([], 0) := rfl

lemma updDistGo_cons (g : Geo) (r : Route) (leg : RouteLeg) (rest : List RouteLeg)
    (i : Int) (prev : Option RouteLeg) :
    updDistGo g r (leg :: rest) i prev =
      if isAirportAfterArrival r i then (leg :: rest, 0)
      else
        ((leg.updateDistanceAndCourse g prev) ::
          (updDistGo g r rest (i + 1) (some (leg.updateDistanceAndCourse g prev))).1,
         (if (leg.updateDistanceAndCourse g prev).isMissed then 0
          else (leg.updateDistanceAndCourse g prev).distanceTo) +
           (updDistGo g r rest (i + 1) (some (leg.updateDistanceAndCourse g prev))).2) := rfl

lemma updateDistanceAndCourse_mapObjectType (g : Geo) (l : RouteLeg)
    (prev : Option RouteLeg) :
    (l.updateDistanceAndCourse g prev).mapObjectType = l.mapObjectType := rfl

lemma updDistGo_fst_length (g : Geo) (r : Route) :
    ∀ (ls : List RouteLeg) (i : Int) (prev : Option RouteLeg),
    (updDistGo g r ls i prev).1.length = ls.length := by
  intro ls
  induction ls with
  | nil => intro i prev; rfl
  | cons leg rest ih =>
    intro i prev
    rw [updDistGo_cons]
    by_cases hb : isAirportAfterArrival r i
    · rw [if_pos hb]
    · rw [if_neg hb]
      simp [ih]

lemma updDistGo_fst_mapObjectType (g : Geo) (r : Route) :
    ∀ (ls : List RouteLeg) (i : Int) (prev : Option RouteLeg) (j : Nat),
    ((updDistGo g r ls i prev).1.getD j dfltLeg).mapObjectType =
      (ls.getD j dfltLeg).mapObjectType := by
  intro ls
  induction ls with
  | nil => intro i prev j; rfl
  | cons leg rest ih =>
    intro i prev j
    rw [updDistGo_cons]
    by_cases hb : isAirportAfterArrival r i
    · rw [if_pos hb]
    · rw [if_neg hb]
      cases j with
      | zero => exact updateDistanceAndCourse_mapObjectType g leg prev
      | succ m => exact ih (i + 1) (some (leg.updateDistanceAndCourse g prev)) m

lemma isAirportAfterArrival_update (g : Geo) (r : Route) (i : Int) :
    isAirportAfterArrival (updateDistancesAndCourse g r) i = isAirportAfterArrival r i := by
  unfold isAirportAfterArrival
  have h1 : (updateDistancesAndCourse g r).hasArrivalProcedure = r.hasArrivalProcedure := rfl
  have h2 : (updateDistancesAndCourse g r).hasStarProcedure = r.hasStarProcedure := rfl
  have h3 : (updateDistancesAndCourse g r).legs.length = r.legs.length :=
    updDistGo_fst_length g r r.legs 0 none
  have h4 : (legAt (updateDistancesAndCourse g r).legs i).mapObjectType =
      (legAt r.legs i).mapObjectType := by
    unfold legAt
    by_cases h0 : 0 ≤ i
    · rw [if_pos h0, if_pos h0]
      exact updDistGo_fst_mapObjectType g r r.legs 0 none i.toNat
    · rw [if_neg h0, if_neg h0]
  rw [h1, h2, h3, h4]

lemma sumNonMissedBefore_congr (r1 r2 : Route)
    (h : ∀ i : Int, isAirportAfterArrival r1 i = isAirportAfterArrival r2 i) :
    ∀ (ls : List RouteLeg) (i : Int),
    sumNonMissedBefore r1 ls i = sumNonMissedBefore r2 ls i := by
  intro ls
  induction ls with
  | nil => intro i; rfl
  | cons leg rest ih =>
    intro i
    unfold sumNonMissedBefore
    rw [h i, ih (i + 1)]

lemma updDistGo_snd_spec (g : Geo) (r : Route) :
    ∀ (ls : List RouteLeg) (i : Int) (prev : Option RouteLeg),
    (updDistGo g r ls i prev).2 = sumNonMissedBefore r (updDistGo g r ls i prev).1 i := by
  intro ls
  induction ls with
  | nil => intro i prev; rfl
  | cons leg rest ih =>
    intro i prev
    rw [updDistGo_cons]
    by_cases hb : isAirportAfterArrival r i
    · rw [if_pos hb]
      unfold sumNonMissedBefore
      rw [if_pos hb]
    · rw [if_neg hb]
      unfold sumNonMissedBefore
      rw [if_neg hb]
      simp only
      rw [ih (i + 1) (some (leg.updateDistanceAndCourse g prev))]

/-- C4: after the distance recomputation pass, `totalDistance` equals (hence
is within 1e-3 nm of) the sum of `getDistanceTo` over all legs that are not
missed-approach legs and precede any trailing airport-after-arrival leg. -/
theorem c4_total_distance_invariant (g : Geo) (r : Route) (hne : r.legs ≠ []) :
    |(updateDistancesAndCourse g r).totalDistance -
      specTotalDistance (updateDistancesAndCourse g r)| ≤ 1/1000 := by
  have h3 := updDistGo_snd_spec g r r.legs 0 none
  have h4 : specTotalDistance (updateDistancesAndCourse g r) =
      sumNonMissedBefore (updateDistancesAndCourse g r) (updDistGo g r r.legs 0 none).1 0 :=
    rfl
  have h5 : sumNonMissedBefore (updateDistancesAndCourse g r)
      (updDistGo g r r.legs 0 none).1 0 =
      sumNonMissedBefore r (updDistGo g r r.legs 0 none).1 0 :=
    sumNonMissedBefore_congr _ _ (isAirportAfterArrival_update g r) _ 0
  have heq : (updateDistancesAndCourse g r).totalDistance =
      specTotalDistance (updateDistancesAndCourse g r) := by
    rw [h4, h5]
    exact h3
  rw [heq]
  simp

/-- Witness for C4 on the four-leg route with a missed leg and a trailing
airport after an attached arrival: total 1000 m, matching the filtered
sum. -/
theorem c4_total_distance_invariant_witness :
    c4Route.legs ≠ [] ∧
    |(updateDistancesAndCourse northGeo c4Route).totalDistance -
      specTotalDistance (updateDistancesAndCourse northGeo c4Route)| ≤ 1/1000 :=
  ⟨by decide, c4_total_distance_invariant northGeo c4Route (by decide)⟩

/-- Descending collection of the indices satisfying an index predicate, as
`Route::eraseProcedureLegs` builds it. -/
def collectIdx (p : Nat → Bool) (n : Nat) : List Nat := (List.range n).reverse.filter p

/-- Keep the elements whose index fails the predicate (the effect of the
descending-index removal pass). -/
def keepIdx {α : Type} (p : Nat → Bool) : List α → List α
  | [] => []
  | x :: es =>
    if p 0 then keepIdx (fun i => p (i + 1)) es
    else x :: keepIdx (fun i => p (i + 1)) es

lemma keepIdx_cons {α : Type} (p : Nat → Bool) (x : α) (es : List α) :
    keepIdx p (x :: es) =
      if p 0 then keepIdx (fun i => p (i + 1)) es
      else x :: keepIdx (fun i => p (i + 1)) es := rfl

lemma filter_map_addOne (p : Nat → Bool) (l : List Nat) :
    (l.map (· + 1)).filter p = (l.filter (fun i => p (i + 1))).map (· + 1) := by
  induction l with
  | nil => rfl
  | cons a t ih =>
    simp only [List.map_cons, List.filter_cons]
    by_cases h : p (a + 1)
    · simp [h, ih]
    · simp [h, ih]

lemma collectIdx_succ (p : Nat → Bool) (n : Nat) :
    collectIdx p (n + 1) =
      (collectIdx (fun i => p (i + 1)) n).map (· + 1) ++ (if p 0 then [0] else []) := by
  unfold collectIdx
  rw [List.range_succ_eq_map, List.reverse_cons, List.filter_append, ← List.map_reverse]
  rw [filter_map_addOne]
  congr 1
  by_cases h : p 0
  · simp [List.filter_cons, h]
  · simp [List.filter_cons, h]

lemma eraseIdxList_append {α : Type} (idxs1 idxs2 : List Nat) (ls : List α) :
    eraseIdxList (idxs1 ++ idxs2) ls = eraseIdxList idxs2 (eraseIdxList idxs1 ls) := by
  unfold eraseIdxList
  rw [List.foldl_append]

lemma eraseIdxList_map_addOne {α : Type} (idxs : List Nat) (x : α) (es : List α) :
    eraseIdxList (idxs.map (· + 1)) (x :: es) = x :: eraseIdxList idxs es := by
  induction idxs generalizing es with
  | nil => rfl
  | cons i t ih =>
    show eraseIdxList (t.map (· + 1)) ((x :: es).eraseIdx (i + 1)) =
      x :: eraseIdxList t (es.eraseIdx i)
    exact ih (es.eraseIdx i)

lemma eraseIdxList_collect {α : Type} (p : Nat → Bool) (es : List α) :
    eraseIdxList (collectIdx p es.length) es = keepIdx p es := by
  induction es generalizing p with
  | nil => rfl
  | cons x t ih =>
    rw [show (x :: t).length = t.length + 1 from rfl, collectIdx_succ]
    rw [eraseIdxList_append, eraseIdxList_map_addOne, ih (fun i => p (i + 1))]
    rw [keepIdx_cons]
    by_cases h0 : p 0
    · rw [if_pos h0, if_pos h0]
      rfl
    · rw [if_neg h0, if_neg h0]
      rfl

lemma keepIdx_eq_filter {α : Type} (q : α → Bool) (dflt : α) (ls : List α) :
    keepIdx (fun i => q (ls.getD i dflt)) ls = ls.filter (fun x => !q x) := by
  induction ls with
  | nil => rfl
  | cons x t ih =>
    show (if q x then keepIdx (fun i => q ((x :: t).getD (i + 1) dflt)) t
      else x :: keepIdx (fun i => q ((x :: t).getD (i + 1) dflt)) t) = _
    have harg : (fun i => q ((x :: t).getD (i + 1) dflt)) = (fun i => q (t.getD i dflt)) := rfl
    rw [harg, ih, List.filter_cons]
    by_cases h : q x
    · simp [h]
    · simp [h]

lemma keepIdx_parallel {α β : Type} (q : α → Bool) (dflt : α) :
    ∀ (ls : List α) (es : List β), es.length = ls.length →
    keepIdx (fun i => q (ls.getD i dflt)) es =
      ((ls.zip es).filter (fun le => !q le.1)).map Prod.snd := by
  intro ls
  induction ls with
  | nil =>
    intro es hlen
    rw [List.length_eq_zero.mp hlen]
    rfl
  | cons x t ih =>
    intro es hlen
    cases es with
    | nil => exact absurd hlen (by simp)
    | cons e es' =>
      show (if q x then keepIdx (fun i => q ((x :: t).getD (i + 1) dflt)) es'
        else e :: keepIdx (fun i => q ((x :: t).getD (i + 1) dflt)) es') = _
      have harg : (fun i => q ((x :: t).getD (i + 1) dflt)) = (fun i => q (t.getD i dflt)) := rfl
      rw [harg, ih es' (by simpa using hlen), List.zip_cons_cons, List.filter_cons]
      by_cases h : q x
      · simp [h]
      · simp [h]

/-- A route leg's identity: every field except the derived
distance-to-previous, which the post-clear recompute pass refreshes. -/
def RouteLeg.stripDerived (l : RouteLeg) : RouteLeg := { l with distanceTo := 0 }

lemma updDistGo_fst_strip (g : Geo) (r : Route) :
    ∀ (ls : List RouteLeg) (i : Int) (prev : Option RouteLeg),
    (updDistGo g r ls i prev).1.map RouteLeg.stripDerived = ls.map RouteLeg.stripDerived := by
  intro ls
  induction ls with
  | nil => intro i prev; rfl
  | cons leg rest ih =>
    intro i prev
    rw [updDistGo_cons]
    by_cases hb : isAirportAfterArrival r i
    · rw [if_pos hb]
    · rw [if_neg hb]
      simp only [List.map_cons]
      rw [ih (i + 1) (some (leg.updateDistanceAndCourse g prev))]
      rfl

lemma maskMatches_star (l : RouteLeg) : maskMatches PROCEDURE_STAR_MASK l = l.isStar := by
  simp [maskMatches, PROCEDURE_STAR_MASK]

lemma eraseProcedureLegs_legs (m : ProcMask) (r : Route) :
    (eraseProcedureLegs m r).legs = r.legs.filter (fun l => !maskMatches m l) := by
  show eraseIdxList (collectMatching m r.legs) r.legs = _
  have h : collectMatching m r.legs =
      collectIdx (fun i => maskMatches m (r.legs.getD i dfltLeg)) r.legs.length := rfl
  rw [h, eraseIdxList_collect, keepIdx_eq_filter]

lemma eraseProcedureLegs_entries (m : ProcMask) (r : Route)
    (hlen : r.entries.length = r.legs.length) :
    (eraseProcedureLegs m r).entries =
      ((r.legs.zip r.entries).filter (fun le => !maskMatches m le.1)).map Prod.snd := by
  show eraseIdxList (collectMatching m r.legs) r.entries = _
  have h : collectMatching m r.legs =
      collectIdx (fun i => maskMatches m (r.legs.getD i dfltLeg)) r.entries.length := by
    rw [hlen]
    rfl
  rw [h, eraseIdxList_collect, keepIdx_parallel (maskMatches m) dfltLeg r.legs r.entries hlen]

/-- C7 (amended): clearing the STAR on a route with departure, STAR and
arrival procedures removes exactly the STAR-tagged legs (up to the
recomputed distance field) and their parallel flight-plan entries, leaves
the departure and arrival blocks and their offsets unchanged, and empties
the attached STAR leg set — but `starLegsOffset` is left unchanged (stale),
not marked absent; and each individual clear operation is a no-op when its
procedure category is already absent. -/
theorem c7_clear_star_amended (g : Geo) (r : Route)
    (hdep : r.hasDepartureProcedure = true) (hstar : r.hasStarProcedure = true)
    (harr : r.hasArrivalProcedure = true)
    (hlen : r.entries.length = r.legs.length) :
    ((clearStarProcedure g r).legs.map RouteLeg.stripDerived =
        (r.legs.filter (fun l => !l.isStar)).map RouteLeg.stripDerived ∧
      (clearStarProcedure g r).entries =
        ((r.legs.zip r.entries).filter (fun le => !le.1.isStar)).map Prod.snd ∧
      (clearStarProcedure g r).departureLegsOffset = r.departureLegsOffset ∧
      (clearStarProcedure g r).arrivalLegsOffset = r.arrivalLegsOffset ∧
      (clearStarProcedure g r).starLegsOffset = r.starLegsOffset ∧
      (clearStarProcedure g r).hasStarProcedure = false) ∧
    (∀ r2 : Route, r2.hasStarProcedure = false → clearStarProcedure g r2 = r2) ∧
    (∀ r2 : Route, r2.hasDepartureProcedure = false → clearDepartureProcedure g r2 = r2) ∧
    (∀ r2 : Route, r2.hasArrivalProcedure = false →
      clearApproachAndTransProcedure g r2 = r2) ∧
    (∀ r2 : Route, r2.hasTransitionProcedure = false →
      clearTransitionProcedure g r2 = r2) := by
  have hstarFun : (fun l : RouteLeg => !maskMatches PROCEDURE_STAR_MASK l) =
      (fun l : RouteLeg => !l.isStar) := by
    funext l
    rw [maskMatches_star]
  have hclear : clearStarProcedure g r =
      updateAll g (eraseProcedureLegs PROCEDURE_STAR_MASK
        { r with starLegs := emptyProcLegs }) := by
    unfold clearStarProcedure
    rw [if_pos hstar]
  constructor
  · refine ⟨?_, ?_, ?_, ?_, ?_, ?_⟩
    · rw [hclear]
      show (updDistGo g _ (eraseProcedureLegs PROCEDURE_STAR_MASK
        { r with starLegs := emptyProcLegs }).legs 0 none).1.map RouteLeg.stripDerived = _
      rw [updDistGo_fst_strip]
      rw [eraseProcedureLegs_legs]
      show (List.filter _ r.legs).map _ = _
      rw [hstarFun]
    · rw [hclear]
      show (eraseProcedureLegs PROCEDURE_STAR_MASK
        { r with starLegs := emptyProcLegs }).entries = _
      rw [eraseProcedureLegs_entries PROCEDURE_STAR_MASK
        { r with starLegs := emptyProcLegs } hlen]
      show ((r.legs.zip r.entries).filter _).map Prod.snd = _
      have : (fun le : RouteLeg × FlightplanEntry =>
          !maskMatches PROCEDURE_STAR_MASK le.1) =
          (fun le : RouteLeg × FlightplanEntry => !le.1.isStar) := by
        funext le
        rw [maskMatches_star]
      rw [this]
    · rw [hclear]
      rfl
    · rw [hclear]
      rfl
    · rw [hclear]
      rfl
    · rw [hclear]
      rfl
  · refine ⟨?_, ?_, ?_, ?_⟩
    · intro r2 h
      unfold clearStarProcedure
      rw [h]
      rfl
    · intro r2 h
      unfold clearDepartureProcedure
      rw [h]
      rfl
    · intro r2 h
      unfold clearApproachAndTransProcedure
      rw [h]
      rfl
    · intro r2 h
      unfold clearTransitionProcedure
      rw [h]
      rfl

/-- C7 counterexample: on the concrete departure+STAR+arrival route,
`starLegsOffset` still holds its old value 2 after `clearStarProcedure` —
it is not marked absent. -/
theorem c7_star_offset_counterexample :
    c7Route.hasStarProcedure = true ∧
    (clearStarProcedure northGeo c7Route).starLegsOffset = 2 ∧
    (2 : Int) ≠ INVALID_INDEX_VALUE := by
  with_unfolding_all decide

/-- Witness for the amended C7 on the concrete route: exactly the two
STAR-tagged entries disappear from the parallel entry list. -/
theorem c7_clear_star_amended_witness :
    c7Route.hasDepartureProcedure = true ∧ c7Route.hasStarProcedure = true ∧
    c7Route.hasArrivalProcedure = true ∧
    c7Route.entries.length = c7Route.legs.length ∧
    (clearStarProcedure northGeo c7Route).entries =
      ((c7Route.legs.zip c7Route.entries).filter (fun le => !le.1.isStar)).map Prod.snd :=
  ⟨by decide, by decide, by decide, by decide,
    (c7_clear_star_amended northGeo c7Route (by decide) (by decide) (by decide)
      (by decide)).1.2.1⟩

lemma update_legs_eq (g : Geo) (r : Route) (pos : PosCourse) :
    (updateActiveLegAndPos g r pos).legs = r.legs := by
  by_cases h : r.legs = [] ∨ pos.isValid = false
  · rw [update_eq_reset g r pos h]
    rfl
  · push_neg at h
    have hne : r.legs ≠ [] := h.1
    have hv : pos.isValid = true := by
      rcases Bool.eq_false_or_eq_true pos.isValid with hb | hb
      · exact hb
      · exact absurd hb h.2

    by_cases hg : preSwitchIndex g r pos + 1 < (r.legs.length : Int)
    · rw [update_eq_branch g r pos hne hv hg]
      split
      · rfl
      · rfl
    · rw [update_eq_nonext g r pos hne hv hg]

lemma preSwitchIndex_lt (g : Geo) (r : Route) (pos : PosCourse) (hne : r.legs ≠ []) :
    preSwitchIndex g r pos < (r.legs.length : Int) := by
  have hlen : 1 ≤ r.legs.length := List.length_pos.mpr hne
  simp only [preSwitchIndex, clampSize]
  split_ifs <;> omega

lemma preSwitchIndex_ge (g : Geo) (r : Route) (pos : PosCourse)
    (ha : r.activeLeg ≠ INVALID_INDEX_VALUE)
    (hlt : r.activeLeg < (r.legs.length : Int)) :
    r.activeLeg ≤ preSwitchIndex g r pos := by
  simp only [preSwitchIndex, clampSize, seedIndex]
  rw [if_neg ha]
  split_ifs <;> omega

lemma skipInitialFix_lt (ls : List RouteLeg) :
    ∀ (fuel : Nat) (j : Int), j < (ls.length : Int) →
    skipInitialFix ls fuel j < (ls.length : Int) := by
  intro fuel
  induction fuel with
  | zero => intro j hj; exact hj
  | succ n ih =>
    intro j hj
    unfold skipInitialFix
    split
    · rename_i hcond
      exact ih (j + 1) (by omega)
    · exact hj

lemma candidateNextLeg_lt (ls : List RouteLeg) (a : Int)
    (h : a + 1 < (ls.length : Int)) : candidateNextLeg ls a < (ls.length : Int) := by
  unfold candidateNextLeg
  split
  · exact skipInitialFix_lt ls ls.length (a + 1) h
  · exact h

lemma update_activeLeg_lt (g : Geo) (r : Route) (pos : PosCourse)
    (hne : r.legs ≠ []) (hv : pos.isValid = true) :
    (updateActiveLegAndPos g r pos).activeLeg < (r.legs.length : Int) := by
  by_cases hg : preSwitchIndex g r pos + 1 < (r.legs.length : Int)
  · rw [update_eq_branch g r pos hne hv hg]
    split
    · exact candidateNextLeg_lt r.legs (preSwitchIndex g r pos) hg
    · exact preSwitchIndex_lt g r pos hne
  · rw [update_eq_nonext g r pos hne hv hg]
    exact preSwitchIndex_lt g r pos hne

lemma update_activeLeg_ge (g : Geo) (r : Route) (pos : PosCourse)
    (hne : r.legs ≠ []) (hv : pos.isValid = true)
    (ha : r.activeLeg ≠ INVALID_INDEX_VALUE)
    (hlt : r.activeLeg < (r.legs.length : Int)) :
    r.activeLeg ≤ (updateActiveLegAndPos g r pos).activeLeg := by
  have hpre := preSwitchIndex_ge g r pos ha hlt
  by_cases hg : preSwitchIndex g r pos + 1 < (r.legs.length : Int)
  · rw [update_eq_branch g r pos hne hv hg]
    split
    · have := candidateNextLeg_ge r.legs (preSwitchIndex g r pos)
      show r.activeLeg ≤ candidateNextLeg r.legs (preSwitchIndex g r pos)
      omega
    · exact hpre
  · rw [update_eq_nonext g r pos hne hv hg]
    exact hpre

/-- C8 (amended): under a stationary repeated sample the active index never
moves backward — a second identical call yields an index at least as large
as the first, so there is no oscillation between two adjacent legs; but the
index is not necessarily the same: a call may advance one further leg while
catching up to a position already beyond several legs. -/
theorem c8_no_oscillation_amended (g : Geo) (r : Route) (pos : PosCourse)
    (hv : pos.isValid = true) (hne : r.legs ≠ [])
    (hn : (r.legs.length : Int) < INVALID_INDEX_VALUE) :
    (updateActiveLegAndPos g r pos).activeLeg ≤
      (updateActiveLegAndPos g (updateActiveLegAndPos g r pos) pos).activeLeg := by
  have hlegs : (updateActiveLegAndPos g r pos).legs = r.legs := update_legs_eq g r pos
  have hlt0 := update_activeLeg_lt g r pos hne hv
  have hlt : (updateActiveLegAndPos g r pos).activeLeg <
      ((updateActiveLegAndPos g r pos).legs.length : Int) := by
    rw [hlegs]
    exact hlt0
  have hne1 : (updateActiveLegAndPos g r pos).legs ≠ [] := by
    rw [hlegs]
    exact hne
  have hninv : (updateActiveLegAndPos g r pos).activeLeg ≠ INVALID_INDEX_VALUE := by
    omega
  exact update_activeLeg_ge g (updateActiveLegAndPos g r pos) pos hne1 hv hninv hlt

/-- C8 counterexample: a stationary sample two legs past the active one; the
first call yields index 2, the immediately repeated identical call yields
index 3 — the active index is not the same after both calls. -/
theorem c8_stationary_catchup_counterexample :
    (updateActiveLegAndPos northGeo c8Route c8Sample).activeLeg = 2 ∧
    (updateActiveLegAndPos northGeo (updateActiveLegAndPos northGeo c8Route c8Sample)
      c8Sample).activeLeg = 3 ∧
    (2 : Int) ≠ 3 := by
  with_unfolding_all decide

/-- Witness for the amended C8 at the concrete catch-up state. -/
theorem c8_no_oscillation_amended_witness :
    (updateActiveLegAndPos northGeo c8Route c8Sample).activeLeg ≤
      (updateActiveLegAndPos northGeo (updateActiveLegAndPos northGeo c8Route c8Sample)
        c8Sample).activeLeg :=
  c8_no_oscillation_amended northGeo c8Route c8Sample (by decide) (by decide) (by decide)
